import Mathlib

/-!
Verification of the Research Session Pipeline of `ai_research_agent_scalinglaw`
(`src/ui/gradio_app.py` and `src/ui/streamlit_app.py`) against its
natural-language specification.

The Python code manipulates dict-shaped payloads.  We embed the shapes the
code actually accesses as Lean structures whose `Option` fields model the
presence or absence of a dict key, mirroring every `dict.get(key, default)`
of the source.  Numbers (Python ints and floats) are modelled as exact
rationals `ℚ` / integers `ℤ`; the concrete values exercised by the claims
are exactly representable, so rational arithmetic agrees with the Python
float arithmetic there.  Python f-string formatting with the `.2f` format
code is modelled by `formatF2`, which fails (as CPython does, with
`ValueError`) when the value is a string.  Exceptions are modelled with
`Except String`.
-/

/-- A Python value as it appears at the format sites of the code: either a
number (int/float collapsed to an exact rational) or a string, e.g. the
sentinel `"N/A"` produced by `dict.get(k, 'N/A')`. -/
inductive PyVal where
  | num (q : ℚ)
  | str (s : String)
deriving DecidableEq

/-- `dict.get(key, 'N/A')` on an optional numeric field: the stored number,
or the string sentinel `"N/A"` when the key is absent. -/
def optNumOrNA : Option ℚ → PyVal
  | some q => PyVal.num q
  | none => PyVal.str "N/A"

/-- Decimal digits of `n` (most significant first), fuel-driven. -/
def natDigits : Nat → Nat → List Char
  | 0, _ => []
  | _ + 1, 0 => []
  | fuel + 1, n => natDigits fuel (n / 10) ++ [Char.ofNat (48 + n % 10)]

/-- Python `str(n)` for a non-negative integer. -/
def natToStr (n : Nat) : String := if n = 0 then "0" else String.mk (natDigits (n + 1) n)

/-- Python `str(i)` for an integer. -/
def intToStr (i : ℤ) : String :=
  if i < 0 then "-" ++ natToStr i.natAbs else natToStr i.natAbs

/-- Floor of a rational, used by the fixed-point formatter. -/
def ratFloor (q : ℚ) : ℤ := q.num / (q.den : ℤ)

/-- Round-half-even (banker's rounding), as used by CPython's `format(x, '.2f')`
on the scaled value. -/
def roundHalfEven (q : ℚ) : ℤ :=
  let f := ratFloor q
  let frac := q - (f : ℚ)
  if frac < 1/2 then f
  else if (1:ℚ)/2 < frac then f + 1
  else if f % 2 = 0 then f else f + 1

/-- Two-decimal-digit fixed formatting of a rational (Python `f"{x:.2f}"` for
a numeric `x`). -/
def fixed2 (q : ℚ) : String :=
  let s := roundHalfEven (q * 100)
  let n := s.natAbs
  (if q < 0 then "-" else "")
    ++ natToStr (n / 100) ++ "."
    ++ (if n % 100 < 10 then "0" else "") ++ natToStr (n % 100)

/-- Fractional decimal digits of `num/den` (with `num < den`), up to `fuel`
digits, trailing zeros suppressed by the `num = 0` stop. -/
def decDigits : Nat → Nat → Nat → String
  | _, _, 0 => ""
  | num, den, fuel + 1 =>
      if num = 0 then ""
      else natToStr (num * 10 / den) ++ decDigits (num * 10 % den) den fuel

/-- Rendering of a number by Python `str()` — exact for integers and for
the terminating decimals the claims exercise (Python's int/float display
distinction is collapsed; no claim depends on the digit string). -/
def ratRepr (q : ℚ) : String :=
  let n := q.num.natAbs
  let ip := n / q.den
  let rem := n % q.den
  (if q < 0 then "-" else "")
    ++ natToStr ip
    ++ (if rem = 0 then "" else "." ++ decDigits rem q.den 20)

/-- Rendering of a `PyVal` inside an f-string replacement field with no
format spec (Python `str()`). -/
def pyStr : PyVal → String
  | PyVal.num q => ratRepr q
  | PyVal.str s => s

/-- Python `f"{v:.2f}"`: formats a number; raises
`ValueError: Unknown format code 'f' for object of type 'str'` on a string. -/
def formatF2 : PyVal → Except String String
  | PyVal.num q => Except.ok (fixed2 q)
  | PyVal.str _ => Except.error "Unknown format code 'f' for object of type 'str'"

/-- Concatenation of a list of strings (the repeated `+=` of the source). -/
def strConcat : List String → String
  | [] => ""
  | s :: rest => s ++ strConcat rest

/-- Is `p` a prefix of `cs`? (Structurally recursive so that concrete
inputs evaluate inside the kernel.) -/
def isPrefixChars : List Char → List Char → Bool
  | [], _ => true
  | _ :: _, [] => false
  | p :: ps, c :: cs => p == c && isPrefixChars ps cs

/-- Python `s.startswith(pre)`. -/
def pyStartsWith (s pre : String) : Bool := isPrefixChars pre.data s.data

/-- Fuel-driven worker for Python `str.split(sep)` with a non-empty `sep`:
leftmost non-overlapping occurrences cut the text; `acc` holds the current
segment reversed.  The fuel (initially the text length, an upper bound on
the number of steps) makes the recursion structural. -/
def splitFuel (sep : List Char) : Nat → List Char → List Char → List (List Char)
  | _, [], acc => [acc.reverse]
  | 0, cs, acc => [acc.reverse ++ cs]
  | fuel + 1, c :: cs, acc =>
      if isPrefixChars sep (c :: cs) then
        acc.reverse :: splitFuel sep fuel ((c :: cs).drop sep.length) []
      else splitFuel sep fuel cs (c :: acc)

/-- Python `s.split(sep)` for a non-empty separator. -/
def pySplit (s sep : String) : List String :=
  (splitFuel sep.data s.data.length s.data []).map String.mk

/-- Drop leading whitespace characters. -/
def dropWhileWS : List Char → List Char
  | [] => []
  | c :: cs => if c.isWhitespace then dropWhileWS cs else c :: cs

/-- Python `s.strip()`: remove leading and trailing whitespace. -/
def pyStrip (s : String) : String :=
  String.mk ((dropWhileWS (dropWhileWS s.data).reverse).reverse)

/-- Python `sub in s` membership test for a non-empty `sub`, expressed via
the same splitting primitive that models `str.split`. -/
def strContains (s sub : String) : Bool := (pySplit s sub).length != 1

/-- Python `str.title()`: each alphabetic character that follows a
non-alphabetic one is uppercased, the other alphabetic ones lowercased. -/
def titleCase (s : String) : String :=
  (s.data.foldl
    (fun (acc : String × Bool) c =>
      if c.isAlpha then (acc.1.push (if acc.2 then c.toLower else c.toUpper), true)
      else (acc.1.push c, false))
    ("", false)).1

/-- `sources_used` dict of a finding (`gradio_app.py` line 54 shape,
`streamlit_app.py` lines 448–457): per-channel counts, each key optional. -/
structure SourcesUsed where
  memory_basic : Option ℤ := none
  memory_advanced : Option ℤ := none
  external_sources : Option ℤ := none
deriving DecidableEq

/-- One research finding, the dict shape accessed by both front ends:
`step` and `step_description` are accessed with `[]` (required), the rest
with `.get` (optional). -/
structure Finding where
  step : ℤ
  step_description : String
  analysis : Option String := none
  sources_used : Option SourcesUsed := none
  external_research : Option (List String) := none
deriving DecidableEq

/-- A generated hypothesis (`gradio_app.py` lines 107–110: `statement`,
`type`, `confidence` accessed with `[]`, evidence and predictions with
`.get`). -/
structure Hypothesis where
  statement : String
  type : String
  confidence : ℚ
  supporting_evidence : List String := []
  predictions : List String := []
deriving DecidableEq

/-- `confidence_scores` dict of the multi-agent analysis
(`gradio_app.py` lines 97–101). -/
structure ConfidenceScores where
  researcher_avg : Option ℚ := none
  critic_avg : Option ℚ := none
  synthesis_confidence : Option ℚ := none
deriving DecidableEq

/-- `multi_agent_analysis` dict: only `confidence_scores` is read by the
aggregation code. -/
structure MultiAgentAnalysis where
  confidence_scores : Option ConfidenceScores := none
deriving DecidableEq

/-- Python dict truthiness of `multi_agent_analysis` (empty dict is falsy). -/
def MultiAgentAnalysis.isEmptyDict (m : MultiAgentAnalysis) : Bool :=
  m.confidence_scores.isNone

/-- `quality_assessment` dict: every key the two front ends read, each
optional (`.get` with a default everywhere). -/
structure QualityAssessment where
  overall_quality_score : Option ℚ := none
  confidence_assessment : Option ℚ := none
  total_findings : Option ℤ := none
  external_sources_used : Option ℤ := none
  source_diversity : Option ℤ := none
  quality_indicators : Option (List (String × Bool)) := none
deriving DecidableEq

/-- Python dict truthiness of `quality_assessment`: falsy exactly when no
key is present (`if quality_assessment:` in both front ends). -/
def QualityAssessment.isEmptyDict (qa : QualityAssessment) : Bool :=
  qa.overall_quality_score.isNone && qa.confidence_assessment.isNone
    && qa.total_findings.isNone && qa.external_sources_used.isNone
    && qa.source_diversity.isNone && qa.quality_indicators.isNone

/-- The agent's result payload, in the shape both front ends read
(`result.get(...)` for every key). -/
structure ResearchResult where
  final_answer : Option String := none
  research_plan : List String := []
  findings : List Finding := []
  hypotheses : List Hypothesis := []
  multi_agent_analysis : MultiAgentAnalysis := {}
  quality_assessment : QualityAssessment := {}
deriving DecidableEq

/-- One archived research run (`gradio_app.py` lines 67–72 /
`streamlit_app.py` lines 804–809). -/
structure HistoryRecord where
  question : String
  result : ResearchResult
  timestamp : String
  quality_score : PyVal
deriving DecidableEq

/-- The derived quality-score snapshot stored in a history record:
`result.get('quality_assessment', {}).get('overall_quality_score', 'N/A')`. -/
def overallScoreOrNA (r : ResearchResult) : PyVal :=
  optNumOrNA r.quality_assessment.overall_quality_score

/-- Numbered lines `"1. x\n2. y\n"` produced by
`for i, step in enumerate(xs, 1): out += f"{i}. {step}\n"`. -/
def numberedLines (xs : List String) : String :=
  strConcat (xs.enum.map (fun p => natToStr (p.1 + 1) ++ ". " ++ p.2 ++ "\n"))

/-- The external-sources count of the process summary
(`gradio_app.py` line 89): `sum(1 for f in findings if f.get('external_research'))`,
i.e. the number of findings whose `external_research` value is truthy
(present and a non-empty list). -/
def externalConsulted (findings : List Finding) : Nat :=
  (findings.filter (fun f =>
    match f.external_research with
    | some (_ :: _) => true
    | _ => false)).length

/-- `processSummary` projection (`gradio_app.py` lines 82–89). -/
def processSummary (result : ResearchResult) : String :=
  "## Research Process\n\n### Research Plan:\n"
    ++ numberedLines result.research_plan
    ++ "\n### Findings Summary:\n"
    ++ "- Total research steps completed: " ++ natToStr result.findings.length ++ "\n"
    ++ "- External sources consulted: " ++ natToStr (externalConsulted result.findings) ++ "\n"

/-- `intelligenceSummary` projection (`gradio_app.py` lines 92–110). -/
def intelligenceSummary (result : ResearchResult) : String :=
  let maaPart :=
    if result.multi_agent_analysis.isEmptyDict then ""
    else
      let cs := result.multi_agent_analysis.confidence_scores.getD {}
      "### Multi-Agent Collaboration:\n"
        ++ "- Researcher Confidence: " ++ fixed2 (cs.researcher_avg.getD 0) ++ "\n"
        ++ "- Critic Confidence: " ++ fixed2 (cs.critic_avg.getD 0) ++ "\n"
        ++ "- Synthesizer Confidence: " ++ fixed2 (cs.synthesis_confidence.getD 0) ++ "\n"
  let hypPart :=
    if result.hypotheses.isEmpty then ""
    else
      "\n### Generated Hypotheses:\n"
        ++ strConcat (result.hypotheses.enum.map (fun p =>
             natToStr (p.1 + 1) ++ ". **" ++ p.2.statement ++ "**\n"
               ++ "   - Type: " ++ p.2.type ++ "\n"
               ++ "   - Confidence: " ++ fixed2 p.2.confidence ++ "\n\n"))
  "## Intelligence Analysis\n\n" ++ maaPart ++ hypPart

/-- Python `s.replace('_', ' ')` at the indicator-rendering call sites:
a single-character replacement. -/
def replaceUnderscores (s : String) : String :=
  String.mk (s.data.map (fun c => if c == '_' then ' ' else c))

/-- One rendered quality-indicator line (`gradio_app.py` lines 125–127);
`indicator.replace('_', ' ')` is the single-character replacement
`replaceUnderscores`. -/
def indicatorLine (p : String × Bool) : String :=
  (if p.2 then "✅" else "❌") ++ " " ++ titleCase (replaceUnderscores p.1) ++ "\n"

/-- `qualitySummary` projection (`gradio_app.py` lines 113–127).  When the
`quality_assessment` dict is non-empty, line 118 formats
`quality_assessment.get('confidence_assessment', 'N/A')` with `.2f`, which
raises `ValueError` when the key is absent (the default is the *string*
`'N/A'`); the raise is modelled by the `Except.error` branch. -/
def qualitySummary (qa : QualityAssessment) : Except String String :=
  if qa.isEmptyDict then Except.ok "## Quality Assessment\n\n"
  else
    match formatF2 (optNumOrNA qa.confidence_assessment) with
    | Except.error e => Except.error e
    | Except.ok conf =>
        Except.ok ("## Quality Assessment\n\n"
          ++ "- **Overall Quality Score:** "
          ++ pyStr (optNumOrNA qa.overall_quality_score) ++ "/10\n"
          ++ "- **Confidence Level:** " ++ conf ++ "\n"
          ++ "- **Total Findings:** " ++ intToStr (qa.total_findings.getD 0) ++ "\n"
          ++ "- **External Sources Used:** "
          ++ intToStr (qa.external_sources_used.getD 0) ++ "\n"
          ++ "- **Source Diversity:** " ++ intToStr (qa.source_diversity.getD 0) ++ "\n"
          ++ "\n### Quality Indicators:\n"
          ++ strConcat ((qa.quality_indicators.getD []).map indicatorLine))

/-- The four strings returned by `conduct_research`. -/
abbrev ConductTuple := String × String × String × String

/-- `GradioResearchInterface.conduct_research` (`gradio_app.py` lines 37–133).
The blocking agent invocation is the external collaborator, passed in as its
outcome `agentResult : Except String ResearchResult` (`Except.error e`
models the call raising an exception with message `str(e) = e`); `now` is
the timestamp taken inside the call.  Returns the displayed 4-tuple together
with the updated `research_history` list. -/
def conduct_research (question : String) (agentResult : Except String ResearchResult)
    (history : List HistoryRecord) (now : String) : ConductTuple × List HistoryRecord :=
  if pyStrip question = "" then
    (("Please enter a research question.", "", "", ""), history)
  else
    match agentResult with
    | Except.error e => (("Research failed: " ++ e, "", "", ""), history)
    | Except.ok result =>
        let record : HistoryRecord :=
          { question := question, result := result, timestamp := now,
            quality_score := overallScoreOrNA result }
        let history' := history ++ [record]
        let finalAnswer := result.final_answer.getD "No final answer generated"
        match qualitySummary result.quality_assessment with
        | Except.error e => (("Research failed: " ++ e, "", "", ""), history')
        | Except.ok qs =>
            ((finalAnswer, processSummary result, intelligenceSummary result, qs), history')

/-- The history window rendered by both front ends:
`research_history[-5:]` (`gradio_app.py` line 176, `streamlit_app.py`
line 141) — the last five records, still in append (chronological) order. -/
def lastFive (history : List HistoryRecord) : List HistoryRecord :=
  history.drop (history.length - 5)

/-- `GradioResearchInterface.get_research_history` (`gradio_app.py`
lines 169–182): renders `research_history[-5:]` front to back, i.e. oldest
of the window first. -/
def get_research_history (history : List HistoryRecord) : String :=
  if history.isEmpty then "No research history available."
  else
    "## Recent Research History\n\n"
      ++ strConcat ((lastFive history).enum.map (fun p =>
           "### Research " ++ natToStr (p.1 + 1) ++ "\n"
             ++ "- **Question:** " ++ p.2.question ++ "\n"
             ++ "- **Quality Score:** " ++ pyStr p.2.quality_score ++ "\n"
             ++ "- **Timestamp:** " ++ p.2.timestamp ++ "\n\n"))

/-- `GradioResearchInterface.export_research_results` (`gradio_app.py`
lines 184–210); `now` is the generation timestamp. -/
def export_research_results (final_answer process_summary intelligence_summary
    quality_summary now : String) : String :=
  if (final_answer == "") || pyStartsWith final_answer "Please enter"
      || pyStartsWith final_answer "Research failed" then
    "No research results to export."
  else
    "# AI Research Agent - Research Report\n\nGenerated on: " ++ now
      ++ "\n\n## Final Answer\n\n" ++ final_answer
      ++ "\n\n" ++ process_summary
      ++ "\n\n" ++ intelligence_summary
      ++ "\n\n" ++ quality_summary
      ++ "\n\n---\n\n*This report was generated by the AI Research Agent"
      ++ " - Phase 5 User Experience*\n"

/-- The five radar-chart dimensions. -/
structure RadarMetrics where
  completeness : ℚ
  sourceDiversityDim : ℚ
  externalValidation : ℚ
  confidenceDim : ℚ
  overallQuality : ℚ
deriving DecidableEq

/-- The quality-radar metric dict
(`streamlit_app.py` lines 597–603, `create_quality_radar_chart`). -/
def radarMetrics (qa : QualityAssessment) : RadarMetrics :=
  { completeness := min ((qa.total_findings.getD 0 : ℚ) / 5 * 10) 10,
    sourceDiversityDim := min ((qa.source_diversity.getD 0 : ℚ) / 4 * 10) 10,
    externalValidation :=
      (qa.external_sources_used.getD 0 : ℚ) / ((max (qa.total_findings.getD 1) 1 : ℤ) : ℚ) * 10,
    confidenceDim := qa.confidence_assessment.getD 0 * 10,
    overallQuality := qa.overall_quality_score.getD 0 }

/-- Key-findings extraction
(`streamlit_app.py` lines 747–748, also 442–443):
`analysis.split('KEY_FINDINGS:')[1].split('NEW_CONCEPTS:')[0].strip()`,
guarded by `if 'KEY_FINDINGS:' in analysis`. -/
def extractKeyFindings (analysis : String) : Option String :=
  if strContains analysis "KEY_FINDINGS:" then
    some (pyStrip ((pySplit ((pySplit analysis "KEY_FINDINGS:").getD 1 "")
      "NEW_CONCEPTS:").getD 0 ""))
  else none

/-- The per-finding block of the markdown report's Key Findings section
(`streamlit_app.py` lines 744–749). -/
def findingBlock (f : Finding) : String :=
  "\n#### Step " ++ intToStr (f.step + 1) ++ ": " ++ f.step_description ++ "\n"
    ++ (match extractKeyFindings (f.analysis.getD "") with
        | some kf => kf ++ "\n"
        | none => "")

/-- `StreamlitResearchInterface.generate_markdown_report`
(`streamlit_app.py` lines 722–762); `now` is the generation timestamp. -/
def generate_markdown_report (result : ResearchResult) (question now : String) : String :=
  let base := "# Research Report\n\n## Research Question\n" ++ question
    ++ "\n\n## Final Answer\n" ++ result.final_answer.getD "No final answer generated"
    ++ "\n\n## Research Process\n"
  let planPart :=
    if result.research_plan.isEmpty then ""
    else "\n### Research Plan\n" ++ numberedLines result.research_plan
  let findingsPart :=
    if result.findings.isEmpty then ""
    else "\n### Key Findings\n" ++ strConcat (result.findings.map findingBlock)
  let qa := result.quality_assessment
  let qaPart :=
    if qa.isEmptyDict then ""
    else
      "\n## Quality Assessment\n"
        ++ "- Overall Quality Score: "
        ++ pyStr (optNumOrNA qa.overall_quality_score) ++ "/10\n"
        ++ "- Confidence Level: " ++ pyStr (optNumOrNA qa.confidence_assessment) ++ "\n"
        ++ "- Total Findings: " ++ intToStr (qa.total_findings.getD 0) ++ "\n"
        ++ "- External Sources Used: "
        ++ intToStr (qa.external_sources_used.getD 0) ++ "\n"
  base ++ planPart ++ findingsPart ++ qaPart
    ++ "\n---\n*Generated by AI Research Agent on " ++ now ++ "*\n"

/-- Whether the streamlit `run` method starts a research at all
(`streamlit_app.py` line 798: `if start_research and research_question.strip():`). -/
def streamlitStartsRun (start_research : Bool) (question : String) : Bool :=
  start_research && !(pyStrip question == "")

/-- `StreamlitResearchInterface.run_research_with_progress`
(`streamlit_app.py` lines 218–295), reduced to its error boundary: on an
agent exception it shows `st.error(f"Research failed: {str(e)}")` and
returns `None`; on success it returns the result and shows no error. -/
def run_research_with_progress (agentResult : Except String ResearchResult) :
    Option ResearchResult × Option String :=
  match agentResult with
  | Except.ok r => (some r, none)
  | Except.error e => (none, some ("Research failed: " ++ e))

/-- The history update of `StreamlitResearchInterface.run`
(`streamlit_app.py` lines 802–810): a record is appended only when the
research returned a result (`if result:`). -/
def streamlitRecordHistory (question : String) (res : Option ResearchResult)
    (now : String) (history : List HistoryRecord) : List HistoryRecord :=
  match res with
  | some r =>
      history ++ [{ question := question, result := r, timestamp := now,
                    quality_score := overallScoreOrNA r }]
  | none => history

/-- A JSON value as produced/consumed by Python's `json` module
(`json.dumps` / `json.loads`); Python keeps the int/float distinction, so
integers and floats are separate constructors. -/
inductive JVal where
  | null
  | jbool (b : Bool)
  | jint (i : ℤ)
  | jfloat (q : ℚ)
  | jstr (s : String)
  | jarr (xs : List JVal)
  | jobj (fields : List (String × JVal))

/-- Key lookup in a JSON object, as `dict[key]` after `json.loads`. -/
def jLookup (fields : List (String × JVal)) (k : String) : Option JVal :=
  match fields with
  | [] => none
  | (k', v) :: rest => if k' = k then some v else jLookup rest k

/-- An optional dict entry: present keys serialize to one field,
absent keys to nothing (Python dicts simply lack the key). -/
def optField {α : Type} (k : String) (enc : α → JVal) : Option α → List (String × JVal)
  | some v => [(k, enc v)]
  | none => []

/-- Decode an optional integer field (absent key ⇒ `none`). -/
def decOptInt : Option JVal → Option (Option ℤ)
  | none => some none
  | some (JVal.jint i) => some (some i)
  | some _ => none

/-- Decode an optional float field. -/
def decOptFloat : Option JVal → Option (Option ℚ)
  | none => some none
  | some (JVal.jfloat q) => some (some q)
  | some _ => none

/-- Decode an optional string field. -/
def decOptStr : Option JVal → Option (Option String)
  | none => some none
  | some (JVal.jstr s) => some (some s)
  | some _ => none

/-- Decode a list of JSON values elementwise, failing if any element fails. -/
def decList {α : Type} (dec : JVal → Option α) : List JVal → Option (List α)
  | [] => some []
  | v :: rest =>
      match dec v, decList dec rest with
      | some a, some as' => some (a :: as')
      | _, _ => none

theorem decList_map {α : Type} (enc : α → JVal) (dec : JVal → Option α)
    (h : ∀ a, dec (enc a) = some a) : ∀ l : List α, decList dec (l.map enc) = some l := by
  intro l
  induction l with
  | nil => rfl
  | cons a rest ih => simp [decList, h, ih]

/-- Decode a string element. -/
def decStr : JVal → Option String
  | JVal.jstr s => some s
  | _ => none

/-- Decode a JSON array of strings. -/
def decStrArr : JVal → Option (List String)
  | JVal.jarr xs => decList decStr xs
  | _ => none

/-- Decode an optional array-of-strings field. -/
def decOptStrArr : Option JVal → Option (Option (List String))
  | none => some none
  | some v =>
      match decStrArr v with
      | some l => some (some l)
      | none => none

/-- Serialization of a `sources_used` dict. -/
def encodeSourcesUsed (s : SourcesUsed) : JVal :=
  JVal.jobj (optField "memory_basic" JVal.jint s.memory_basic
    ++ optField "memory_advanced" JVal.jint s.memory_advanced
    ++ optField "external_sources" JVal.jint s.external_sources)

/-- Parse a `sources_used` dict back. -/
def decodeSourcesUsed : JVal → Option SourcesUsed
  | JVal.jobj fs =>
      match decOptInt (jLookup fs "memory_basic"),
          decOptInt (jLookup fs "memory_advanced"),
          decOptInt (jLookup fs "external_sources") with
      | some a, some b, some c =>
          some { memory_basic := a, memory_advanced := b, external_sources := c }
      | _, _, _ => none
  | _ => none

theorem decodeSourcesUsed_encode (s : SourcesUsed) :
    decodeSourcesUsed (encodeSourcesUsed s) = some s := by
  rcases s with ⟨a, b, c⟩
  rcases a with _ | a <;> rcases b with _ | b <;> rcases c with _ | c <;> rfl

/-- Serialization of one finding. -/
def encodeFinding (f : Finding) : JVal :=
  JVal.jobj ([("step", JVal.jint f.step),
      ("step_description", JVal.jstr f.step_description)]
    ++ optField "analysis" JVal.jstr f.analysis
    ++ optField "sources_used" encodeSourcesUsed f.sources_used
    ++ optField "external_research" (fun l => JVal.jarr (l.map JVal.jstr))
        f.external_research)

/-- Decode an optional `sources_used` field. -/
def decOptSources : Option JVal → Option (Option SourcesUsed)
  | none => some none
  | some v =>
      match decodeSourcesUsed v with
      | some s => some (some s)
      | none => none

/-- Parse one finding back. -/
def decodeFinding : JVal → Option Finding
  | JVal.jobj fs =>
      match decOptInt (jLookup fs "step"), decOptStr (jLookup fs "step_description"),
          decOptStr (jLookup fs "analysis"), decOptSources (jLookup fs "sources_used"),
          decOptStrArr (jLookup fs "external_research") with
      | some (some st), some (some sd), some an, some su, some er =>
          some { step := st, step_description := sd, analysis := an,
                 sources_used := su, external_research := er }
      | _, _, _, _, _ => none
  | _ => none

theorem decodeFinding_encode (f : Finding) : decodeFinding (encodeFinding f) = some f := by
  rcases f with ⟨st, sd, an, su, er⟩
  rcases an with _ | an <;> rcases su with _ | su <;> rcases er with _ | er <;>
    simp [encodeFinding, decodeFinding, optField, jLookup, decOptInt, decOptStr,
      decOptSources, decOptStrArr, decStrArr, decodeSourcesUsed_encode,
      decList_map JVal.jstr decStr (fun a => rfl)]

/-- Serialization of one hypothesis. -/
def encodeHypothesis (h : Hypothesis) : JVal :=
  JVal.jobj [("statement", JVal.jstr h.statement),
    ("type", JVal.jstr h.type),
    ("confidence", JVal.jfloat h.confidence),
    ("supporting_evidence", JVal.jarr (h.supporting_evidence.map JVal.jstr)),
    ("predictions", JVal.jarr (h.predictions.map JVal.jstr))]

/-- Parse one hypothesis back. -/
def decodeHypothesis : JVal → Option Hypothesis
  | JVal.jobj fs =>
      match decOptStr (jLookup fs "statement"), decOptStr (jLookup fs "type"),
          decOptFloat (jLookup fs "confidence"),
          decOptStrArr (jLookup fs "supporting_evidence"),
          decOptStrArr (jLookup fs "predictions") with
      | some (some st), some (some ty), some (some c), some (some se), some (some pr) =>
          some { statement := st, type := ty, confidence := c,
                 supporting_evidence := se, predictions := pr }
      | _, _, _, _, _ => none
  | _ => none

theorem decodeHypothesis_encode (h : Hypothesis) :
    decodeHypothesis (encodeHypothesis h) = some h := by
  rcases h with ⟨st, ty, c, se, pr⟩
  simp [encodeHypothesis, decodeHypothesis, jLookup, decOptStr, decOptFloat,
    decOptStrArr, decStrArr, decList_map JVal.jstr decStr (fun a => rfl)]

/-- Serialization of the `confidence_scores` dict. -/
def encodeConfidenceScores (cs : ConfidenceScores) : JVal :=
  JVal.jobj (optField "researcher_avg" JVal.jfloat cs.researcher_avg
    ++ optField "critic_avg" JVal.jfloat cs.critic_avg
    ++ optField "synthesis_confidence" JVal.jfloat cs.synthesis_confidence)

/-- Parse the `confidence_scores` dict back. -/
def decodeConfidenceScores : JVal → Option ConfidenceScores
  | JVal.jobj fs =>
      match decOptFloat (jLookup fs "researcher_avg"),
          decOptFloat (jLookup fs "critic_avg"),
          decOptFloat (jLookup fs "synthesis_confidence") with
      | some a, some b, some c =>
          some { researcher_avg := a, critic_avg := b, synthesis_confidence := c }
      | _, _, _ => none
  | _ => none

theorem decodeConfidenceScores_encode (cs : ConfidenceScores) :
    decodeConfidenceScores (encodeConfidenceScores cs) = some cs := by
  rcases cs with ⟨a, b, c⟩
  rcases a with _ | a <;> rcases b with _ | b <;> rcases c with _ | c <;> rfl

/-- Serialization of the `multi_agent_analysis` dict. -/
def encodeMAA (m : MultiAgentAnalysis) : JVal :=
  JVal.jobj (optField "confidence_scores" encodeConfidenceScores m.confidence_scores)

/-- Parse the `multi_agent_analysis` dict back. -/
def decodeMAA : JVal → Option MultiAgentAnalysis
  | JVal.jobj fs =>
      match jLookup fs "confidence_scores" with
      | none => some { confidence_scores := none }
      | some v =>
          match decodeConfidenceScores v with
          | some cs => some { confidence_scores := some cs }
          | none => none
  | _ => none

theorem decodeMAA_encode (m : MultiAgentAnalysis) : decodeMAA (encodeMAA m) = some m := by
  rcases m with ⟨cs⟩
  rcases cs with _ | cs
  · rfl
  · simp [encodeMAA, decodeMAA, optField, jLookup, decodeConfidenceScores_encode]

/-- Serialization of the `quality_indicators` dict. -/
def encodeIndicators (l : List (String × Bool)) : JVal :=
  JVal.jobj (l.map (fun p => (p.1, JVal.jbool p.2)))

/-- Parse the fields of a `quality_indicators` dict back (each value must be
a JSON boolean). -/
def decodeIndicatorList : List (String × JVal) → Option (List (String × Bool))
  | [] => some []
  | (k, JVal.jbool b) :: rest => (decodeIndicatorList rest).map (fun l => (k, b) :: l)
  | _ => none

/-- Parse the `quality_indicators` dict back. -/
def decodeIndicators : JVal → Option (List (String × Bool))
  | JVal.jobj fs => decodeIndicatorList fs
  | _ => none

theorem decodeIndicators_encode (l : List (String × Bool)) :
    decodeIndicators (encodeIndicators l) = some l := by
  induction l with
  | nil => rfl
  | cons p rest ih =>
      rcases p with ⟨k, b⟩
      simpa [encodeIndicators, decodeIndicators, decodeIndicatorList] using ih

/-- Serialization of the `quality_assessment` dict. -/
def encodeQA (qa : QualityAssessment) : JVal :=
  JVal.jobj (optField "overall_quality_score" JVal.jfloat qa.overall_quality_score
    ++ optField "confidence_assessment" JVal.jfloat qa.confidence_assessment
    ++ optField "total_findings" JVal.jint qa.total_findings
    ++ optField "external_sources_used" JVal.jint qa.external_sources_used
    ++ optField "source_diversity" JVal.jint qa.source_diversity
    ++ optField "quality_indicators" encodeIndicators qa.quality_indicators)

/-- Decode an optional `quality_indicators` field. -/
def decOptIndicators : Option JVal → Option (Option (List (String × Bool)))
  | none => some none
  | some v =>
      match decodeIndicators v with
      | some l => some (some l)
      | none => none

/-- Parse the `quality_assessment` dict back. -/
def decodeQA : JVal → Option QualityAssessment
  | JVal.jobj fs =>
      match decOptFloat (jLookup fs "overall_quality_score"),
          decOptFloat (jLookup fs "confidence_assessment"),
          decOptInt (jLookup fs "total_findings"),
          decOptInt (jLookup fs "external_sources_used"),
          decOptInt (jLookup fs "source_diversity"),
          decOptIndicators (jLookup fs "quality_indicators") with
      | some o, some c, some t, some e, some s, some qi =>
          some { overall_quality_score := o, confidence_assessment := c,
                 total_findings := t, external_sources_used := e,
                 source_diversity := s, quality_indicators := qi }
      | _, _, _, _, _, _ => none
  | _ => none

theorem decodeQA_encode (qa : QualityAssessment) : decodeQA (encodeQA qa) = some qa := by
  rcases qa with ⟨o, c, t, e, s, qi⟩
  rcases o with _ | o <;> rcases c with _ | c <;> rcases t with _ | t <;>
    rcases e with _ | e <;> rcases s with _ | s <;> rcases qi with _ | qi <;>
    simp [encodeQA, decodeQA, optField, jLookup, decOptFloat, decOptInt,
      decOptIndicators, decodeIndicators_encode]

/-- Serialization of a full `ResearchResult` dict, structurally faithful to
what `json.dumps(result, ...)` emits: every present key, no key dropped. -/
def encodeResult (r : ResearchResult) : JVal :=
  JVal.jobj (optField "final_answer" JVal.jstr r.final_answer
    ++ [("research_plan", JVal.jarr (r.research_plan.map JVal.jstr)),
        ("findings", JVal.jarr (r.findings.map encodeFinding)),
        ("hypotheses", JVal.jarr (r.hypotheses.map encodeHypothesis)),
        ("multi_agent_analysis", encodeMAA r.multi_agent_analysis),
        ("quality_assessment", encodeQA r.quality_assessment)])

/-- Parse a full `ResearchResult` back from its JSON value. -/
def decodeResult : JVal → Option ResearchResult
  | JVal.jobj fs =>
      match decOptStr (jLookup fs "final_answer"),
          decOptStrArr (jLookup fs "research_plan"),
          (match jLookup fs "findings" with
           | some (JVal.jarr xs) => decList decodeFinding xs
           | _ => none),
          (match jLookup fs "hypotheses" with
           | some (JVal.jarr xs) => decList decodeHypothesis xs
           | _ => none),
          (jLookup fs "multi_agent_analysis").bind decodeMAA,
          (jLookup fs "quality_assessment").bind decodeQA with
      | some fa, some (some plan), some fnds, some hyps, some maa, some qa =>
          some { final_answer := fa, research_plan := plan, findings := fnds,
                 hypotheses := hyps, multi_agent_analysis := maa,
                 quality_assessment := qa }
      | _, _, _, _, _, _ => none
  | _ => none

theorem decodeResult_encode (r : ResearchResult) :
    decodeResult (encodeResult r) = some r := by
  rcases r with ⟨fa, plan, fnds, hyps, maa, qa⟩
  rcases fa with _ | fa <;>
    simp [encodeResult, decodeResult, optField, jLookup, decOptStr, decOptStrArr,
      decStrArr, decList_map JVal.jstr decStr (fun a => rfl),
      decList_map encodeFinding decodeFinding decodeFinding_encode,
      decList_map encodeHypothesis decodeHypothesis decodeHypothesis_encode,
      decodeMAA_encode, decodeQA_encode]

/-- `StreamlitResearchInterface.export_as_json` (`streamlit_app.py`
lines 702–710): the downloaded data is `json.dumps(result, indent=2,
default=str)` — only the result is serialized; the `question` argument and
the timestamp (used only in the suggested filename) are not part of the
payload.  The stdlib `json.dumps`/`json.loads` pair is external library
code, modelled as the identity codec between JSON values and their text. -/
def export_as_json (result : ResearchResult) (question : String) : JVal :=
  encodeResult result

set_option maxRecDepth 8192

/-- The finding of the spec's end-to-end scenario (§8): step 0 with
`sources_used.external_sources = 2`; like the spec's own example it carries
no `external_research` key. -/
def specFinding : Finding :=
  { step := 0, step_description := "Define terms",
    analysis := some "KEY_FINDINGS: entanglement is... NEW_CONCEPTS: none",
    sources_used := some { memory_basic := some 1, memory_advanced := some 0,
                           external_sources := some 2 } }

/-- The spec's end-to-end result: two-step plan, the single finding above. -/
def specPlanResult : ResearchResult :=
  { research_plan := ["Define terms", "Survey literature"], findings := [specFinding] }

/-- C1: the claim as stated is false — when `quality_assessment` is
non-empty but `confidence_assessment` is absent, `qualitySummary` raises
(`gradio_app.py` line 118 formats the string default `'N/A'` with `.2f`)
instead of rendering the sentinel, and the whole research run surfaces
`Research failed: ...`. -/
theorem c1_quality_summary_counterexample :
    qualitySummary { overall_quality_score := some 8 }
      = Except.error "Unknown format code 'f' for object of type 'str'"
    ∧ (conduct_research "What is quantum entanglement?"
        (Except.ok { quality_assessment := { overall_quality_score := some 8 } }) [] "T").1.1
      = "Research failed: Unknown format code 'f' for object of type 'str'" :=
  ⟨rfl, rfl⟩

/-- C1 (amended): `qualitySummary` succeeds exactly when the
`quality_assessment` dict is empty or `confidence_assessment` is present;
an entirely absent assessment renders only the header (no `N/A`/0 field
lines), and a non-empty assessment lacking `confidence_assessment` raises
the `.2f` format error instead of rendering the sentinel. -/
theorem c1_quality_summary_totality (qa : QualityAssessment) :
    ((qualitySummary qa).isOk = (qa.isEmptyDict || qa.confidence_assessment.isSome))
    ∧ (qa.isEmptyDict = true → qualitySummary qa = Except.ok "## Quality Assessment\n\n")
    ∧ (qa.isEmptyDict = false → qa.confidence_assessment = none →
        qualitySummary qa = Except.error "Unknown format code 'f' for object of type 'str'") := by
  refine ⟨?_, ?_, ?_⟩
  · unfold qualitySummary
    cases h : qa.isEmptyDict <;> cases hc : qa.confidence_assessment <;>
      simp [h, hc, optNumOrNA, formatF2, Except.isOk, Except.toBool]
  · intro h
    simp [qualitySummary, h]
  · intro h hc
    simp [qualitySummary, h, hc, optNumOrNA, formatF2]

/-- C1 (witness): both branches of the amended statement at concrete
assessments. -/
theorem c1_quality_summary_totality_witness :
    qualitySummary {} = Except.ok "## Quality Assessment\n\n"
    ∧ (qualitySummary { confidence_assessment := some (1/2) }).isOk = true :=
  ⟨(c1_quality_summary_totality {}).2.1 rfl,
   (c1_quality_summary_totality { confidence_assessment := some (1/2) }).1⟩

/-- The count of findings with a truthy `external_research` value, one cons
at a time: a finding contributes 1 exactly when `external_research` is
present and non-empty. -/
theorem externalConsulted_cons (f : Finding) (rest : List Finding) :
    externalConsulted (f :: rest)
      = (if (f.external_research.getD []).isEmpty then 0 else 1)
          + externalConsulted rest := by
  rcases hf : f.external_research with _ | l
  · simp [externalConsulted, List.filter_cons, hf]
  · cases l <;> simp [externalConsulted, List.filter_cons, hf, Nat.add_comm]

/-- C2: the claim as stated is false — the external-sources line counts
findings with a truthy `external_research` field (`gradio_app.py` line 89),
not findings with `sources_used.external_sources > 0`: the spec's own
example finding has `external_sources = 2` yet is reported as
"External sources consulted: 0". -/
theorem c2_external_count_counterexample :
    (specFinding.sources_used.getD {}).external_sources = some 2
    ∧ strContains (processSummary specPlanResult) "External sources consulted: 1" = false
    ∧ strContains (processSummary specPlanResult) "External sources consulted: 0" = true := by
  refine ⟨rfl, ?_, ?_⟩ <;> decide

/-- C2 (amended): `processSummary` reports the numbered plan and the total
findings count as claimed, but its external-sources line counts the
findings whose `external_research` field is present and non-empty;
`sources_used.external_sources` plays no role in it. -/
theorem c2_process_summary_amended :
    (∀ (f : Finding) (rest : List Finding),
        externalConsulted (f :: rest)
          = (if (f.external_research.getD []).isEmpty then 0 else 1)
              + externalConsulted rest)
    ∧ externalConsulted [] = 0
    ∧ numberedLines ["Define terms", "Survey literature"]
        = "1. Define terms\n2. Survey literature\n"
    ∧ strContains (processSummary specPlanResult) "- Total research steps completed: 1" = true
    ∧ strContains (processSummary { specPlanResult with
          findings := [{ specFinding with external_research := some ["DuckDuckGo result"] }] })
        "External sources consulted: 1" = true :=
  ⟨externalConsulted_cons, rfl, by decide, by decide, by decide⟩

/-- A minimal history record with the given timestamp. -/
def histRec (t : String) : HistoryRecord :=
  { question := "q-" ++ t, result := {}, timestamp := t, quality_score := PyVal.str "N/A" }

/-- Three records appended in timestamp order t1 < t2 < t3. -/
def histThree : List HistoryRecord := [histRec "t1", histRec "t2", histRec "t3"]

/-- C3: the claim as stated is false — after appending records with
timestamps t1 < t2 < t3, the rendered window keeps append order, so the
first record shown is the oldest (t1), not the most recent (t3). -/
theorem c3_recent_history_counterexample :
    lastFive histThree = histThree
    ∧ (lastFive histThree).head? = some (histRec "t1")
    ∧ ((lastFive histThree).head?).map HistoryRecord.timestamp ≠ some "t3" := by
  refine ⟨rfl, rfl, ?_⟩
  decide

/-- C3 (amended): the history view renders the last `min 5 n` records as a
suffix of the store in chronological (oldest-first) order — the most recent
record appears last, not first; when the store holds at most five records
all of them are rendered, without error (the window size is fixed at 5,
there is no `n` parameter). -/
theorem c3_recent_history_window (history : List HistoryRecord) :
    lastFive history <:+ history
    ∧ (lastFive history).length = min 5 history.length
    ∧ (history.length ≤ 5 → lastFive history = history)
    ∧ (history ≠ [] → (lastFive history).getLast? = history.getLast?) := by
  refine ⟨List.drop_suffix _ _, ?_, ?_, ?_⟩
  · simp [lastFive]
    omega
  · intro h
    simp [lastFive, Nat.sub_eq_zero_of_le h]
  · intro h
    have hlen : 0 < history.length := List.length_pos.mpr h
    have hne : lastFive history ≠ [] := by
      have : (lastFive history).length = min 5 history.length := by
        simp [lastFive]; omega
      intro hcon
      rw [hcon] at this
      simp at this
      omega
    calc (lastFive history).getLast?
        = (history.take (history.length - 5) ++ lastFive history).getLast? :=
          (List.getLast?_append_of_ne_nil _ hne).symm
      _ = history.getLast? := by rw [lastFive, List.take_append_drop]

/-- C3 (witness): the amended statement at the three-record store. -/
theorem c3_recent_history_window_witness :
    lastFive histThree = histThree
    ∧ (lastFive histThree).getLast? = histThree.getLast? :=
  ⟨(c3_recent_history_window histThree).2.2.1 (by decide),
   (c3_recent_history_window histThree).2.2.2 (by decide)⟩

/-- A concrete rich result used to exhibit the JSON export. -/
def resRich : ResearchResult :=
  { final_answer := some "Entanglement links quantum states.",
    research_plan := ["Define terms", "Survey literature"],
    findings := [specFinding],
    hypotheses := [{ statement := "H1", type := "causal", confidence := 4/5 }],
    quality_assessment :=
      { overall_quality_score := some 7,
        confidence_assessment := some (4/5), total_findings := some 1,
        external_sources_used := some 2, source_diversity := some 1,
        quality_indicators := some [("has_external_validation", true)] } }

/-- C4: the claim as stated is false — `export_as_json` serializes only the
result (`json.dumps(result, indent=2, default=str)`,
`streamlit_app.py` line 704): the question metadata is not part of the
payload, so two exports of the same result under different questions are
identical and the metadata cannot be recovered from the export. -/
theorem c4_json_metadata_counterexample :
    export_as_json resRich "What is quantum entanglement?"
      = export_as_json resRich "a different question"
    ∧ "What is quantum entanglement?" ≠ "a different question" :=
  ⟨rfl, by decide⟩

/-- C4 (amended): the JSON export serializes the complete contents of the
result alone — no field of the result is dropped, and reparsing the export
yields an equivalent structure reproducing the original final_answer,
research plan, findings count and quality score; the question/timestamp
metadata are not serialized (the timestamp appears only in the suggested
filename). -/
theorem c4_json_round_trip (r : ResearchResult) (question : String) :
    decodeResult (export_as_json r question) = some r
    ∧ (decodeResult (export_as_json r question)).map ResearchResult.final_answer
        = some r.final_answer
    ∧ (decodeResult (export_as_json r question)).map ResearchResult.research_plan
        = some r.research_plan
    ∧ (decodeResult (export_as_json r question)).map (fun x => x.findings.length)
        = some r.findings.length
    ∧ (decodeResult (export_as_json r question)).map
          (fun x => x.quality_assessment.overall_quality_score)
        = some r.quality_assessment.overall_quality_score := by
  have h : decodeResult (export_as_json r question) = some r := decodeResult_encode r
  exact ⟨h, by rw [h]; rfl, by rw [h]; rfl, by rw [h]; rfl, by rw [h]; rfl⟩

/-- C5: the Completeness and SourceDiversity radar dimensions are the
claimed clamped formulas: always at most 10, and exactly 10 (not 100) at
`total_findings = 50`, `source_diversity = 100`. -/
theorem c5_radar_clamping (qa : QualityAssessment) :
    (radarMetrics qa).completeness ≤ 10
    ∧ (radarMetrics qa).sourceDiversityDim ≤ 10
    ∧ (qa.total_findings = some 50 → (radarMetrics qa).completeness = 10)
    ∧ (qa.source_diversity = some 100 → (radarMetrics qa).sourceDiversityDim = 10) := by
  refine ⟨min_le_right _ _, min_le_right _ _, ?_, ?_⟩
  · intro h
    simp [radarMetrics, h]
    norm_num
  · intro h
    simp [radarMetrics, h]
    norm_num

/-- C5 (witness): the clamping at the concrete assessment of the claim. -/
theorem c5_radar_clamping_witness :
    (radarMetrics { total_findings := some 50,
                    source_diversity := some 100 }).completeness = 10
    ∧ (radarMetrics { total_findings := some 50,
                      source_diversity := some 100 }).sourceDiversityDim = 10 :=
  ⟨(c5_radar_clamping _).2.2.1 rfl, (c5_radar_clamping _).2.2.2 rfl⟩

/-- C6: the ExternalValidation radar dimension divides by
`max(total_findings, 1)`, which is always at least 1 (no division by zero),
and at `total_findings = 0`, `external_sources_used = 5` it equals 50 —
not clamped by this formula. -/
theorem c6_radar_division_guard (qa : QualityAssessment) :
    (1 : ℤ) ≤ max (qa.total_findings.getD 1) 1
    ∧ (qa.total_findings = some 0 → qa.external_sources_used = some 5 →
        (radarMetrics qa).externalValidation = 50) := by
  refine ⟨le_max_right _ _, ?_⟩
  intro ht he
  simp [radarMetrics, ht, he]
  norm_num

/-- C6 (witness): the guard at the concrete assessment of the claim. -/
theorem c6_radar_division_guard_witness :
    (1 : ℤ) ≤ max ((({ total_findings := some 0,
                       external_sources_used := some 5 }
        : QualityAssessment).total_findings).getD 1) 1
    ∧ (radarMetrics { total_findings := some 0,
                      external_sources_used := some 5 }).externalValidation = 50 :=
  ⟨(c6_radar_division_guard _).1, (c6_radar_division_guard _).2 rfl rfl⟩

theorem strConcat_append (xs ys : List String) :
    strConcat (xs ++ ys) = strConcat xs ++ strConcat ys := by
  induction xs with
  | nil => rfl
  | cons a rest ih => simp [strConcat, ih, String.append_assoc]

/-- A segment occurring inside `t` also occurs inside `a ++ t`. -/
theorem substr_extend_left (a : String) {t seg : String}
    (h : ∃ p s, t = p ++ seg ++ s) : ∃ p s, a ++ t = p ++ seg ++ s := by
  obtain ⟨p, s, rfl⟩ := h
  exact ⟨a ++ p, s, by simp [String.append_assoc]⟩

/-- A segment occurring inside `t` also occurs inside `t ++ c`. -/
theorem substr_extend_right (c : String) {t seg : String}
    (h : ∃ p s, t = p ++ seg ++ s) : ∃ p s, t ++ c = p ++ seg ++ s := by
  obtain ⟨p, s, rfl⟩ := h
  exact ⟨p, s ++ c, by simp [String.append_assoc]⟩

/-- A segment occurs where it is spliced. -/
theorem substr_here (p seg s : String) : ∃ p' s', p ++ (seg ++ s) = p' ++ seg ++ s' :=
  ⟨p, s, by simp [String.append_assoc]⟩

/-- A segment occurs at the very end of a string. -/
theorem substr_at_end (t seg : String) : ∃ p s, t ++ seg = p ++ seg ++ s :=
  ⟨t, "", by rw [String.append_empty]⟩

/-- Every finding's rendered block occurs verbatim inside the markdown
report. -/
theorem mdReport_contains_block (result : ResearchResult) (question now : String)
    (f : Finding) (hf : f ∈ result.findings) :
    ∃ p s, generate_markdown_report result question now = p ++ findingBlock f ++ s := by
  obtain ⟨l1, l2, hsplit⟩ := List.append_of_mem hf
  have hne : (l1 ++ f :: l2).isEmpty = false := by cases l1 <;> rfl
  have hmap : strConcat (List.map findingBlock (l1 ++ f :: l2))
      = strConcat (List.map findingBlock l1)
        ++ (findingBlock f ++ strConcat (List.map findingBlock l2)) := by
    simp [List.map_append, strConcat_append, strConcat]
  simp only [generate_markdown_report, hsplit, hne, Bool.false_eq_true, if_false, hmap]
  exact substr_extend_right _ (substr_extend_right _ (substr_extend_right _
    (substr_extend_right _ (substr_extend_left _ (substr_extend_left _
      (substr_here _ _ _))))))

/-- A finding whose analysis has the `KEY_FINDINGS:` marker but no
`NEW_CONCEPTS:` marker. -/
def findingTailOnly : Finding :=
  { step := 0, step_description := "Survey literature",
    analysis := some "KEY_FINDINGS: TAILONLY" }

/-- A result holding only that finding. -/
def resTailOnly : ResearchResult := { findings := [findingTailOnly] }

/-- C7: the claim as stated is false — for a finding whose analysis
contains `KEY_FINDINGS:` but no `NEW_CONCEPTS:` marker, there is no
substring lying between the two markers, yet the report still emits a
key-findings block (the trailing text after `KEY_FINDINGS:`). -/
theorem c7_key_findings_counterexample :
    strContains "KEY_FINDINGS: TAILONLY" "NEW_CONCEPTS:" = false
    ∧ extractKeyFindings "KEY_FINDINGS: TAILONLY" = some "TAILONLY"
    ∧ strContains (generate_markdown_report resTailOnly "Q" "T") "TAILONLY" = true := by
  refine ⟨by decide, by decide, by decide⟩

/-- C7 (amended): a key-findings block is emitted for a finding exactly when
`KEY_FINDINGS:` occurs in its analysis; its content is
`analysis.split('KEY_FINDINGS:')[1].split('NEW_CONCEPTS:')[0].strip()` —
the stripped text between the markers when `NEW_CONCEPTS:` follows, and the
stripped tail when it does not; a finding without the marker contributes no
block, and generation is total — each finding's block appears verbatim in
the report. -/
theorem c7_key_findings_extraction :
    (∀ analysis : String,
        (extractKeyFindings analysis).isSome = strContains analysis "KEY_FINDINGS:")
    ∧ extractKeyFindings "KEY_FINDINGS: entanglement is... NEW_CONCEPTS: none"
        = some "entanglement is..."
    ∧ extractKeyFindings "no markers here" = none
    ∧ extractKeyFindings "KEY_FINDINGS: tail only" = some "tail only"
    ∧ (∀ (result : ResearchResult) (question now : String) (f : Finding),
        f ∈ result.findings →
        ∃ p s, generate_markdown_report result question now = p ++ findingBlock f ++ s) := by
  refine ⟨?_, by decide, by decide, by decide, mdReport_contains_block⟩
  intro analysis
  unfold extractKeyFindings
  cases h : strContains analysis "KEY_FINDINGS:" <;> simp [h]

/-- C7 (witness): the spec's end-to-end finding appears in its report. -/
theorem c7_key_findings_extraction_witness :
    specFinding ∈ specPlanResult.findings
    ∧ ∃ p s, generate_markdown_report specPlanResult "What is quantum entanglement?" "T"
        = p ++ findingBlock specFinding ++ s :=
  ⟨by decide,
   c7_key_findings_extraction.2.2.2.2 specPlanResult "What is quantum entanglement?" "T"
     specFinding (by decide)⟩

/-- C8: a question that is empty or whitespace-only after trimming is
rejected with the fixed invalid-input outcome (the embedding of
`InvalidInputError`): the returned tuple is the rejection message and does
not depend on the agent outcome at all (no agent call is consulted), the
history store is left unchanged (no session is created), and the streamlit
front end does not start a run at all. -/
theorem c8_blank_question_rejected (question : String)
    (agentResult : Except String ResearchResult) (history : List HistoryRecord)
    (now : String) (h : pyStrip question = "") :
    conduct_research question agentResult history now
      = (("Please enter a research question.", "", "", ""), history)
    ∧ (∀ other : Except String ResearchResult,
        conduct_research question agentResult history now
          = conduct_research question other history now)
    ∧ streamlitStartsRun true question = false := by
  refine ⟨?_, ?_, ?_⟩
  · simp [conduct_research, h]
  · intro other
    simp [conduct_research, h]
  · simp [streamlitStartsRun, h]

/-- C8 (witness): a whitespace-only question at concrete inputs. -/
theorem c8_blank_question_rejected_witness :
    conduct_research "   " (Except.error "boom") [] "T"
      = (("Please enter a research question.", "", "", ""), [])
    ∧ streamlitStartsRun true "   " = false :=
  ⟨(c8_blank_question_rejected "   " (Except.error "boom") [] "T" (by decide)).1,
   (c8_blank_question_rejected "   " (Except.error "boom") [] "T" (by decide)).2.2⟩

/-- C9: an exception raised by the blocking agent invocation is caught at
the orchestrator boundary of both front ends: the gradio orchestrator
returns (does not re-raise) the failed outcome carrying
`"Research failed: " ++ str(e)`, without appending a history record; the
streamlit runner returns no result and shows the same human-readable
message, and its caller then skips the history append. -/
theorem c9_agent_exception_handled (question e : String)
    (history : List HistoryRecord) (now : String) (h : ¬ pyStrip question = "") :
    conduct_research question (Except.error e) history now
      = (("Research failed: " ++ e, "", "", ""), history)
    ∧ run_research_with_progress (Except.error e)
        = (none, some ("Research failed: " ++ e))
    ∧ streamlitRecordHistory question none now history = history := by
  refine ⟨?_, rfl, rfl⟩
  simp [conduct_research, h]

/-- C9 (witness): a failing agent call at concrete inputs. -/
theorem c9_agent_exception_handled_witness :
    conduct_research "What is quantum entanglement?" (Except.error "ConnectionError") [] "T"
      = (("Research failed: ConnectionError", "", "", ""), []) :=
  (c9_agent_exception_handled "What is quantum entanglement?" "ConnectionError" [] "T"
    (by decide)).1

/-- C10: the export returns the fixed no-results string exactly when the
final answer is empty or begins with `"Please enter"` or with
`"Research failed"`; otherwise the report embeds all four section strings
verbatim. -/
theorem c10_export_gating (fa ps intel qs now : String) :
    (export_research_results fa ps intel qs now = "No research results to export."
      ↔ (fa = "" ∨ pyStartsWith fa "Please enter" = true
          ∨ pyStartsWith fa "Research failed" = true))
    ∧ (¬ (fa = "" ∨ pyStartsWith fa "Please enter" = true
          ∨ pyStartsWith fa "Research failed" = true) →
        (∃ p s, export_research_results fa ps intel qs now = p ++ fa ++ s)
        ∧ (∃ p s, export_research_results fa ps intel qs now = p ++ ps ++ s)
        ∧ (∃ p s, export_research_results fa ps intel qs now = p ++ intel ++ s)
        ∧ (∃ p s, export_research_results fa ps intel qs now = p ++ qs ++ s)) := by
  have hprop : (((fa == "") || pyStartsWith fa "Please enter"
      || pyStartsWith fa "Research failed") = true)
      ↔ (fa = "" ∨ pyStartsWith fa "Please enter" = true
          ∨ pyStartsWith fa "Research failed" = true) := by
    simp [Bool.or_eq_true, or_assoc]
  cases hcond : ((fa == "") || pyStartsWith fa "Please enter"
      || pyStartsWith fa "Research failed") with
  | true =>
      refine ⟨⟨fun _ => hprop.mp hcond, fun _ => ?_⟩, fun hnot => absurd (hprop.mp hcond) hnot⟩
      simp [export_research_results, hcond]
  | false =>
      have hform : export_research_results fa ps intel qs now
          = "# AI Research Agent - Research Report\n\nGenerated on: " ++ now
            ++ "\n\n## Final Answer\n\n" ++ fa ++ "\n\n" ++ ps ++ "\n\n" ++ intel
            ++ "\n\n" ++ qs
            ++ "\n\n---\n\n*This report was generated by the AI Research Agent"
            ++ " - Phase 5 User Experience*\n" := by
        simp [export_research_results, hcond]
      have hne : export_research_results fa ps intel qs now
          ≠ "No research results to export." := by
        rw [hform]
        intro hEq
        have hl := congrArg String.length hEq
        simp only [String.length_append] at hl
        have e1 : ("# AI Research Agent - Research Report\n\nGenerated on: "
            : String).length = 53 := by decide
        have e2 : ("No research results to export." : String).length = 30 := by decide
        rw [e1, e2] at hl
        omega
      refine ⟨⟨fun hEq => absurd hEq hne, fun hOr => ?_⟩, fun _ => ?_⟩
      · exfalso
        rw [← hprop, hcond] at hOr
        exact Bool.false_ne_true hOr
      · rw [hform]
        refine ⟨?_, ?_, ?_, ?_⟩
        · exact substr_extend_right _ (substr_extend_right _ (substr_extend_right _
            (substr_extend_right _ (substr_extend_right _ (substr_extend_right _
              (substr_extend_right _ (substr_extend_right _ (substr_at_end _ _))))))))
        · exact substr_extend_right _ (substr_extend_right _ (substr_extend_right _
            (substr_extend_right _ (substr_extend_right _ (substr_extend_right _
              (substr_at_end _ _))))))
        · exact substr_extend_right _ (substr_extend_right _ (substr_extend_right _
            (substr_extend_right _ (substr_at_end _ _))))
        · exact substr_extend_right _ (substr_extend_right _ (substr_at_end _ _))

/-- C10 (witness): both branches at concrete section texts. -/
theorem c10_export_gating_witness :
    export_research_results "Research failed: boom" "P" "I" "Q" "T"
      = "No research results to export."
    ∧ (∃ p s, export_research_results "An answer." "P" "I" "Q" "T" = p ++ "An answer." ++ s) :=
  ⟨(c10_export_gating "Research failed: boom" "P" "I" "Q" "T").1.mpr
     (Or.inr (Or.inr (by decide))),
   ((c10_export_gating "An answer." "P" "I" "Q" "T").2 (by decide)).1⟩
